import Mathlib

/-!
Verification development for `examples/sentence_similarity/gensen_local.ipynb`
of the nlp-recipes repository.

The notebook is a linear script.  Its own code (the glue in the code cells) is
embedded directly; the library functions it imports in its first code cell
(`snli.load_pandas_df`, `snli.clean_cols`, `snli.clean_rows`,
`preprocess.to_lowercase`, `preprocess.to_nltk_tokens`,
`download_and_extract`, `GenSenClassifier`) live elsewhere in the repository
and are not part of the sources under verification, so they are modelled from
the specification and from the notebook's own markdown, as noted on each
definition.

A Python string is modelled as its list of unicode code points (`List Nat`);
a pandas dataframe is modelled as a list of rows, with one row structure per
pipeline stage (the raw SNLI schema, the cleaned schema, the tokenized
schema).
-/

namespace GensenLocal

/-- Text data: a Python string as its list of unicode code points. -/
abbrev Sentence : Type := List Nat

/-- Code points of a Lean string literal, used to write concrete text data. -/
def strCodes (s : String) : Sentence :=
  s.toList.map Char.toNat

/-- Raw SNLI dataframe row as returned by `snli.load_pandas_df`: the gold
label, the two sentences, and the remaining columns of the SNLI tab-separated
format (the binary parses, the full parses, the caption and pair ids and the
five annotator labels), which the notebook never uses individually and which
are dropped by the cleaning step. -/
structure RawRow where
  gold_label : Sentence
  sentence1 : Sentence
  sentence2 : Sentence
  extra : List Sentence
  deriving DecidableEq, Repr

/-- Cleaned dataframe row: the gold label renamed to `score` plus the two
sentence columns, the schema shown by `dev.head()` before tokenization. -/
structure CleanRow where
  score : Sentence
  sentence1 : Sentence
  sentence2 : Sentence
  deriving DecidableEq, Repr

/-- Tokenized dataframe row: the cleaned columns plus the two token-list
columns added by `preprocess.to_nltk_tokens`, the schema shown by
`dev.head()` after `clean_and_tokenize`. -/
structure TokRow where
  score : Sentence
  sentence1 : Sentence
  sentence2 : Sentence
  sentence1_tokens : List Sentence
  sentence2_tokens : List Sentence
  deriving DecidableEq, Repr

/-- SNLI dataset splits, the `Split` enum imported by the notebook. -/
inductive Split where
  | TRAIN
  | DEV
  | TEST
  deriving DecidableEq, Repr

/-- Uppercase ASCII letter test on a code point. -/
def isUpperCode (c : Nat) : Bool :=
  decide (65 ≤ c ∧ c ≤ 90)

/-- Lowercasing of one code point: uppercase ASCII letters move down to
their lowercase counterparts, everything else is unchanged. -/
def lowerCode (c : Nat) : Nat :=
  if isUpperCode c then c + 32 else c

/-- Lowercasing of a whole string, code point by code point. -/
def lowerSentence (s : Sentence) : Sentence :=
  s.map lowerCode

/-- Whitespace test on a code point (space, tab, newline, carriage return). -/
def isSpaceCode (c : Nat) : Bool :=
  c == 32 || c == 9 || c == 10 || c == 13

/-- Tokenizer worker: walks the remaining code points while accumulating the
current in-progress token in reverse; whitespace closes the current token. -/
def tokenizeAux : Sentence → Sentence → List Sentence
  | [], cur => if cur.isEmpty then [] else [cur.reverse]
  | c :: rest, cur =>
    if isSpaceCode c then
      if cur.isEmpty then tokenizeAux rest []
      else cur.reverse :: tokenizeAux rest []
    else tokenizeAux rest (c :: cur)

/-- Modelled from the spec: the NLTK word tokenizer used by
`preprocess.to_nltk_tokens` is not among the sources; the spec describes the
step only as deriving token sequences from the sentences, modelled here as
splitting on whitespace into non-empty tokens. -/
def word_tokenize (s : Sentence) : List Sentence :=
  tokenizeAux s []

namespace snli

/-- Modelled from the spec: `snli.clean_cols` is not among the sources; the
notebook describes it as dropping the unneeded columns and renaming the
gold-label column to `score`, keeping the two sentence columns. -/
def clean_cols (df : List RawRow) : List CleanRow :=
  df.map fun r => { score := r.gold_label
                    sentence1 := r.sentence1
                    sentence2 := r.sentence2 }

/-- Dash marker used by SNLI for pairs without a gold label. -/
def dashLabel : Sentence := strCodes "-"

/-- Row-validity test used by the row-cleaning step. -/
def validRow (r : CleanRow) : Bool :=
  decide (r.score ≠ dashLabel)

/-- Modelled from the spec: `snli.clean_rows` is not among the sources; the
notebook describes the step only as cleaning the data, modelled here as
dropping the rows without a usable gold label (SNLI marks these with a
dash). -/
def clean_rows (df : List CleanRow) : List CleanRow :=
  df.filter validRow

end snli

namespace preprocess

/-- Modelled from the spec: `preprocess.to_lowercase` is not among the
sources; the notebook describes it as lowercase standardization of the
sentence columns. -/
def to_lowercase (df : List CleanRow) : List CleanRow :=
  df.map fun r => { score := r.score
                    sentence1 := lowerSentence r.sentence1
                    sentence2 := lowerSentence r.sentence2 }

/-- Modelled from the spec: `preprocess.to_nltk_tokens` is not among the
sources; the notebook describes it as adding, for each sentence column, a
column with the token sequence derived from that sentence. -/
def to_nltk_tokens (df : List CleanRow) : List TokRow :=
  df.map fun r => { score := r.score
                    sentence1 := r.sentence1
                    sentence2 := r.sentence2
                    sentence1_tokens := word_tokenize r.sentence1
                    sentence2_tokens := word_tokenize r.sentence2 }

end preprocess

/-- The notebook's preprocessing function, embedded from the source cell:
reassigns the dataframe through `snli.clean_cols`, `snli.clean_rows`,
`preprocess.to_lowercase` and `preprocess.to_nltk_tokens` in that order. -/
def clean_and_tokenize (df : List RawRow) : List TokRow :=
  let df1 := snli.clean_cols df
  let df2 := snli.clean_rows df1
  let df3 := preprocess.to_lowercase df2
  let df4 := preprocess.to_nltk_tokens df3
  df4

/-- Sentence encoder produced by training: maps a sentence to a fixed-length
`d`-dimensional real embedding vector. -/
abbrev Encoder (d : ℕ) : Type := Sentence → Fin d → ℝ

/-- Modelled from the spec: the `GenSenClassifier` wrapper class is not among
the sources; the notebook describes its constructor as taking the config file
path, the pretrained-embedding path, the learning rate, the cache directory
and the maximal epoch count, stored as inert configuration. -/
structure GenSenClassifier where
  config_file : String
  pretrained_embedding_path : String
  learning_rate : ℚ
  cache_dir : String
  max_epoch : Option ℕ
  deriving DecidableEq, Repr

/-- External collaborators of the notebook, modelled as oracles: the SNLI
loader, the gloVe downloader, and the wrapper's training routine, which turns
the classifier configuration and the three dataframes into a trained sentence
encoder.  Everything the notebook cannot compute itself is a field here. -/
structure Externals (d : ℕ) where
  load_pandas_df : String → Split → Option ℕ → List RawRow
  download_and_extract : String → String
  fit : GenSenClassifier → List TokRow → List TokRow → List TokRow → Encoder d

/-- Notebook parameter cell: maximal epoch count. -/
def max_epoch : Option ℕ := none

/-- Notebook parameter cell: path of the GenSen config file. -/
def config_filepath : String := "gensen_config.json"

/-- Notebook parameter cell: base data directory. -/
def base_data_path : String := "../../data"

/-- Notebook parameter cell: row limit passed to the loader. -/
def nrows : Option ℕ := none

/-- Raw train dataframe, from the notebook's first loading statement. -/
def rawTrain {d : ℕ} (ext : Externals d) : List RawRow :=
  ext.load_pandas_df base_data_path Split.TRAIN nrows

/-- Raw dev dataframe, from the notebook's second loading statement. -/
def rawDev {d : ℕ} (ext : Externals d) : List RawRow :=
  ext.load_pandas_df base_data_path Split.DEV nrows

/-- Raw test dataframe, from the notebook's third loading statement. -/
def rawTest {d : ℕ} (ext : Externals d) : List RawRow :=
  ext.load_pandas_df base_data_path Split.TEST nrows

/-- The train dataframe after the notebook reassigns it to
`clean_and_tokenize(train)`. -/
def train {d : ℕ} (ext : Externals d) : List TokRow :=
  clean_and_tokenize (rawTrain ext)

/-- The dev dataframe after the notebook reassigns it to
`clean_and_tokenize(dev)`. -/
def dev {d : ℕ} (ext : Externals d) : List TokRow :=
  clean_and_tokenize (rawDev ext)

/-- The test dataframe after the notebook reassigns it to
`clean_and_tokenize(test)`. -/
def test {d : ℕ} (ext : Externals d) : List TokRow :=
  clean_and_tokenize (rawTest ext)

/-- Value of the notebook's `pretrained_embedding_path` variable, returned by
`download_and_extract(base_data_path)`. -/
def pretrained_embedding_path {d : ℕ} (ext : Externals d) : String :=
  ext.download_and_extract base_data_path

/-- The notebook's `clf` variable: the classifier constructed with the config
file path, the downloaded embedding path, learning rate 0.0001, the base data
path as cache directory, and the epoch parameter. -/
def clf {d : ℕ} (ext : Externals d) : GenSenClassifier :=
  { config_file := config_filepath
    pretrained_embedding_path := pretrained_embedding_path ext
    learning_rate := (0.0001 : ℚ)
    cache_dir := base_data_path
    max_epoch := max_epoch }

/-- The exact arguments passed to `clf.fit(train, dev, test)`: the receiver
and the three dataframes as they stand at the call. -/
def fitCall {d : ℕ} (ext : Externals d) :
    GenSenClassifier × List TokRow × List TokRow × List TokRow :=
  (clf ext, train ext, dev ext, test ext)

/-- The trained encoder resulting from the `clf.fit(train, dev, test)` call,
computed entirely by the external wrapper oracle. -/
def trainedEncoder {d : ℕ} (ext : Externals d) : Encoder d :=
  ext.fit (clf ext) (train ext) (dev ext) (test ext)

/-- First sentence of the notebook's prediction cell. -/
def sentenceA : Sentence := strCodes "The sky is blue and beautiful"

/-- Second sentence of the notebook's prediction cell. -/
def sentenceB : Sentence := strCodes "Love this blue and beautiful sky!"

/-- The notebook's `sentences` list passed to `clf.predict`. -/
def sentences : List Sentence := [sentenceA, sentenceB]

noncomputable section

/-- Arithmetic mean of the entries of an embedding vector. -/
def mean {d : ℕ} (x : Fin d → ℝ) : ℝ :=
  (∑ i, x i) / (d : ℝ)

/-- Unnormalized covariance of two embedding vectors: the sum of products of
their centered entries. -/
def covar {d : ℕ} (x y : Fin d → ℝ) : ℝ :=
  ∑ i, (x i - mean x) * (y i - mean y)

/-- Pearson correlation coefficient of two embedding vectors. -/
def pearson {d : ℕ} (x y : Fin d → ℝ) : ℝ :=
  covar x y / Real.sqrt (covar x x * covar y y)

/-- Modelled from the spec: the `predict` method of the wrapper is not among
the sources; the notebook describes it as performing Pearson's correlation
computation on the model's outputs for the given sentences, yielding the
matrix of pairwise correlations of the sentence embeddings. -/
def predictSimilarity {d : ℕ} (enc : Encoder d) (ss : List Sentence) :
    List (List ℝ) :=
  (ss.map enc).map fun x => (ss.map enc).map fun y => pearson x y

/-- The notebook's `results` variable: `clf.predict(sentences)`. -/
def results {d : ℕ} (ext : Externals d) : List (List ℝ) :=
  predictSimilarity (trainedEncoder ext) sentences

/-- The value printed by the notebook's `print(results)` statement. -/
def printedResults {d : ℕ} (ext : Externals d) : List (List ℝ) :=
  results ext

end

/-- Nested-dictionary form of the similarity matrix, modelling
`results.to_dict()`: every entry is kept unchanged, labelled with its
indices. -/
def resultsToDict (m : List (List ℝ)) : List (ℕ × List (ℕ × ℝ)) :=
  (m.map List.enum).enum

/-- The value recorded by the notebook's `sb.glue("results",
results.to_dict())` statement. -/
noncomputable def gluedResults {d : ℕ} (ext : Externals d) :
    List (ℕ × List (ℕ × ℝ)) :=
  resultsToDict (results ext)

/-- The notebook's external collaborators, as modules the notebook calls. -/
inductive Collaborator where
  | snliLoader
  | gloveDownloader
  | gensenWrapper
  | preprocessHelpers
  | scrapbookRecorder
  deriving DecidableEq, Repr

/-- Events of the notebook's execution: one event per call, in source order,
to a function or method imported in the notebook's first code cell (the
builtin `print` statements and the pandas `head` displays call no imported
function and produce no event). -/
inductive Ev where
  | loadDf (path : String) (split : Split) (nr : Option ℕ)
  | cleanCols
  | cleanRows
  | toLowercase
  | toNltkTokens
  | downloadEmbeddings (path : String)
  | constructClassifier
  | fit
  | predict
  | glueResults
  deriving DecidableEq, Repr

/-- The module each event's call belongs to. -/
def collabOf : Ev → Collaborator
  | Ev.loadDf _ _ _ => Collaborator.snliLoader
  | Ev.cleanCols => Collaborator.snliLoader
  | Ev.cleanRows => Collaborator.snliLoader
  | Ev.toLowercase => Collaborator.preprocessHelpers
  | Ev.toNltkTokens => Collaborator.preprocessHelpers
  | Ev.downloadEmbeddings _ => Collaborator.gloveDownloader
  | Ev.constructClassifier => Collaborator.gensenWrapper
  | Ev.fit => Collaborator.gensenWrapper
  | Ev.predict => Collaborator.gensenWrapper
  | Ev.glueResults => Collaborator.scrapbookRecorder

/-- Events of one `clean_and_tokenize` call, in the order of its body. -/
def cleanAndTokenizeEvents : List Ev :=
  [Ev.cleanCols, Ev.cleanRows, Ev.toLowercase, Ev.toNltkTokens]

/-- Trace of the notebook's library calls, cell by cell in source order:
the three loads, the three `clean_and_tokenize` applications, the embedding
download, the classifier construction, fit, predict, and the scrapbook
recording of the results. -/
def notebookTrace : List Ev :=
  [Ev.loadDf base_data_path Split.TRAIN nrows,
   Ev.loadDf base_data_path Split.DEV nrows,
   Ev.loadDf base_data_path Split.TEST nrows]
  ++ cleanAndTokenizeEvents ++ cleanAndTokenizeEvents ++ cleanAndTokenizeEvents
  ++ [Ev.downloadEmbeddings base_data_path,
      Ev.constructClassifier,
      Ev.fit,
      Ev.predict,
      Ev.glueResults]

/-- The five stages named by the specification, with the fit-then-predict
stage split into its two ordered calls; the embedding download sits between
the named stages and maps to no stage. -/
inductive Stage where
  | loadStage
  | tokenizeStage
  | instantiateStage
  | fitStage
  | predictStage
  | reportStage
  deriving DecidableEq, Repr

/-- Stage of an event: loading, tokenizing and cleaning, instantiating the
wrapper, fitting, predicting, and reporting the metric (the scrapbook
recording of the computed correlations). -/
def stageOf : Ev → Option Stage
  | Ev.loadDf _ _ _ => some Stage.loadStage
  | Ev.cleanCols => some Stage.tokenizeStage
  | Ev.cleanRows => some Stage.tokenizeStage
  | Ev.toLowercase => some Stage.tokenizeStage
  | Ev.toNltkTokens => some Stage.tokenizeStage
  | Ev.downloadEmbeddings _ => none
  | Ev.constructClassifier => some Stage.instantiateStage
  | Ev.fit => some Stage.fitStage
  | Ev.predict => some Stage.predictStage
  | Ev.glueResults => some Stage.reportStage

/-- Collapse of runs of adjacent equal elements to a single element, so that
a stage sequence shows each contiguous stage block once. -/
def collapseRuns {α : Type} [DecidableEq α] : List α → List α
  | [] => []
  | a :: rest =>
    match collapseRuns rest with
    | [] => [a]
    | b :: t => if a = b then b :: t else a :: b :: t

/-- Whether an event reads or writes the train, dev or test dataframes. -/
def touchesFrames : Ev → Bool
  | Ev.loadDf _ _ _ => true
  | Ev.cleanCols => true
  | Ev.cleanRows => true
  | Ev.toLowercase => true
  | Ev.toNltkTokens => true
  | Ev.downloadEmbeddings _ => false
  | Ev.constructClassifier => false
  | Ev.fit => false
  | Ev.predict => false
  | Ev.glueResults => false

/-- Arguments of a load event, `none` for every other event. -/
def loadArgsOf : Ev → Option (String × Split × Option ℕ)
  | Ev.loadDf p s n => some (p, s, n)
  | _ => none

/-- The three collaborators named by the claim about external interactions. -/
def claimedCollaborators : List Collaborator :=
  [Collaborator.snliLoader, Collaborator.gloveDownloader,
   Collaborator.gensenWrapper]

/-- Row of the tokenized schema derived from a raw row: the gold label kept
as the score, the two lowercased sentences, and the token sequences derived
from those two lowercased sentences. -/
def derivedRow (raw : RawRow) : TokRow :=
  { score := raw.gold_label
    sentence1 := lowerSentence raw.sentence1
    sentence2 := lowerSentence raw.sentence2
    sentence1_tokens := word_tokenize (lowerSentence raw.sentence1)
    sentence2_tokens := word_tokenize (lowerSentence raw.sentence2) }

/-- Sample raw SNLI row used to evaluate the pipeline on concrete data. -/
def sampleRaw : RawRow :=
  { gold_label := strCodes "neutral"
    sentence1 := strCodes "A man Runs"
    sentence2 := strCodes "He sits"
    extra := [] }

/-- Sample one-row raw dataframe. -/
def sampleDf : List RawRow := [sampleRaw]

/-- The tokenized row the pipeline produces from the sample raw row. -/
def sampleTokRow : TokRow :=
  { score := strCodes "neutral"
    sentence1 := strCodes "a man runs"
    sentence2 := strCodes "he sits"
    sentence1_tokens := [strCodes "a", strCodes "man", strCodes "runs"]
    sentence2_tokens := [strCodes "he", strCodes "sits"] }

/-- Concrete external collaborators with an empty (zero-dimensional)
encoder, used to evaluate the notebook model on concrete data. -/
def sampleExt : Externals 0 :=
  { load_pandas_df := fun _ _ _ => sampleDf
    download_and_extract := fun p => p
    fit := fun _ _ _ _ => fun _ => Fin.elim0 }

/-- Concrete external collaborators whose trained encoder sends every
sentence to the two-dimensional vector (0, 1), which has positive variance,
used to evaluate the prediction model on concrete data. -/
noncomputable def extW : Externals 2 :=
  { load_pandas_df := fun _ _ _ => sampleDf
    download_and_extract := fun p => p
    fit := fun _ _ _ _ => fun _ i => (i.val : ℝ) }

section Lemmas

/-- Lowercasing a code point never yields an uppercase ASCII letter. -/
theorem isUpperCode_lowerCode (c : Nat) : isUpperCode (lowerCode c) = false := by
  unfold lowerCode
  by_cases h : 65 ≤ c ∧ c ≤ 90
  · rw [if_pos (show isUpperCode c = true by simp [isUpperCode, h])]
    simp only [isUpperCode, decide_eq_false_iff_not]
    omega
  · rw [if_neg (show ¬ isUpperCode c = true by
      simpa [isUpperCode, decide_eq_true_eq] using h)]
    simp only [isUpperCode, decide_eq_false_iff_not]
    exact h

/-- Every code point of a lowercased sentence is non-uppercase. -/
theorem lowerSentence_no_upper {s : Sentence} {c : Nat}
    (hc : c ∈ lowerSentence s) : isUpperCode c = false := by
  obtain ⟨a, _, rfl⟩ := List.mem_map.mp hc
  exact isUpperCode_lowerCode a

/-- Every code point of every token produced by the tokenizer worker comes
from the remaining input or from the accumulator. -/
theorem mem_tokenizeAux {s : Sentence} :
    ∀ {cur t : Sentence}, t ∈ tokenizeAux s cur → ∀ c ∈ t, c ∈ s ∨ c ∈ cur := by
  induction s with
  | nil =>
    intro cur t ht c hc
    unfold tokenizeAux at ht
    by_cases hcur : cur.isEmpty = true
    · rw [if_pos hcur] at ht
      cases ht
    · rw [if_neg hcur] at ht
      rcases List.mem_singleton.mp ht with rfl
      exact Or.inr (List.mem_reverse.mp hc)
  | cons a rest ih =>
    intro cur t ht c hc
    unfold tokenizeAux at ht
    by_cases hsp : isSpaceCode a = true
    · rw [if_pos hsp] at ht
      by_cases hcur : cur.isEmpty = true
      · rw [if_pos hcur] at ht
        rcases ih ht c hc with h | h
        · exact Or.inl (List.mem_cons_of_mem _ h)
        · cases h
      · rw [if_neg hcur] at ht
        rcases List.mem_cons.mp ht with rfl | ht2
        · exact Or.inr (List.mem_reverse.mp hc)
        · rcases ih ht2 c hc with h | h
          · exact Or.inl (List.mem_cons_of_mem _ h)
          · cases h
    · rw [if_neg hsp] at ht
      rcases ih ht c hc with h | h
      · exact Or.inl (List.mem_cons_of_mem _ h)
      · rcases List.mem_cons.mp h with rfl | h2
        · exact Or.inl (List.mem_cons_self _ _)
        · exact Or.inr h2

/-- Every code point of every token of a sentence occurs in the sentence. -/
theorem mem_word_tokenize {s t : Sentence} (ht : t ∈ word_tokenize s) :
    ∀ c ∈ t, c ∈ s := by
  intro c hc
  rcases mem_tokenizeAux ht c hc with h | h
  · exact h
  · cases h

/-- Every row of the output of `clean_and_tokenize` is the derived row of a
raw input row that passed the row-validity filter. -/
theorem mem_clean_and_tokenize {df : List RawRow} {r : TokRow}
    (h : r ∈ clean_and_tokenize df) :
    ∃ raw ∈ df, r = derivedRow raw := by
  simp only [clean_and_tokenize, preprocess.to_nltk_tokens,
    preprocess.to_lowercase, snli.clean_rows, snli.clean_cols] at h
  obtain ⟨r3, h3, rfl⟩ := List.mem_map.mp h
  obtain ⟨r2, h2, rfl⟩ := List.mem_map.mp h3
  obtain ⟨h2m, _⟩ := List.mem_filter.mp h2
  obtain ⟨raw, hraw, rfl⟩ := List.mem_map.mp h2m
  exact ⟨raw, hraw, rfl⟩

/-- Unnormalized covariance is symmetric in its two arguments. -/
theorem covar_comm {d : ℕ} (x y : Fin d → ℝ) : covar x y = covar y x := by
  unfold covar
  exact Finset.sum_congr rfl fun _ _ => mul_comm _ _

/-- Unnormalized covariance of a vector with itself is nonnegative. -/
theorem covar_self_nonneg {d : ℕ} (x : Fin d → ℝ) : 0 ≤ covar x x :=
  Finset.sum_nonneg fun _ _ => mul_self_nonneg _

/-- Pearson correlation is symmetric in its two arguments. -/
theorem pearson_comm {d : ℕ} (x y : Fin d → ℝ) : pearson x y = pearson y x := by
  unfold pearson
  rw [covar_comm x y, mul_comm]

/-- Pearson correlation of a vector of nonzero variance with itself is 1. -/
theorem pearson_self {d : ℕ} (x : Fin d → ℝ) (h : covar x x ≠ 0) :
    pearson x x = 1 := by
  unfold pearson
  rw [Real.sqrt_mul_self (covar_self_nonneg x)]
  exact div_self h

end Lemmas

/-- C1: the notebook's `clean_and_tokenize` equals, on every input
dataframe, the composition of `snli.clean_cols`, then `snli.clean_rows`,
then `preprocess.to_lowercase`, then `preprocess.to_nltk_tokens`, in exactly
that order, and this identical function is applied to each of the train,
dev and test dataframes. -/
theorem C1_clean_and_tokenize_composition :
    (∀ df : List RawRow,
      clean_and_tokenize df =
        preprocess.to_nltk_tokens (preprocess.to_lowercase
          (snli.clean_rows (snli.clean_cols df)))) ∧
    ∀ {d : ℕ} (ext : Externals d),
      train ext = clean_and_tokenize (rawTrain ext) ∧
      dev ext = clean_and_tokenize (rawDev ext) ∧
      test ext = clean_and_tokenize (rawTest ext) :=
  ⟨fun _ => rfl, fun {_} _ => ⟨rfl, rfl, rfl⟩⟩

/-- C2: the notebook's stages run in the fixed order load, tokenize and
clean, instantiate the wrapper, fit, predict, report the metric; collapsing
each contiguous block of the stage trace to one entry yields each stage
exactly once, in that order, so no stage is skipped, repeated or
reordered. -/
theorem C2_stage_order :
    collapseRuns (notebookTrace.filterMap stageOf) =
      [Stage.loadStage, Stage.tokenizeStage, Stage.instantiateStage,
       Stage.fitStage, Stage.predictStage, Stage.reportStage] := by decide

/-- C3: every row of each of the train, dev and test dataframes after
`clean_and_tokenize` is exactly the gold label of some raw input row of the
matching split together with its lowercased sentence pair and the token
sequences derived from those two sentences; the row type has no other
fields. -/
theorem C3_rows_are_label_pair_tokens {d : ℕ} (ext : Externals d) :
    (∀ r ∈ train ext, ∃ raw ∈ rawTrain ext, r = derivedRow raw) ∧
    (∀ r ∈ dev ext, ∃ raw ∈ rawDev ext, r = derivedRow raw) ∧
    (∀ r ∈ test ext, ∃ raw ∈ rawTest ext, r = derivedRow raw) :=
  ⟨fun _ hr => mem_clean_and_tokenize hr,
   fun _ hr => mem_clean_and_tokenize hr,
   fun _ hr => mem_clean_and_tokenize hr⟩

/-- Witness for C3 at concrete data: the sample tokenized row is in the
train frame of the sample collaborators and is derived from a raw row. -/
theorem C3_witness :
    sampleTokRow ∈ train sampleExt ∧
    ∃ raw ∈ rawTrain sampleExt, sampleTokRow = derivedRow raw :=
  ⟨by decide, (C3_rows_are_label_pair_tokens sampleExt).1 sampleTokRow (by decide)⟩

/-- C4 counterexample: the notebook's call trace contains the scrapbook
recording call, whose module is none of the three collaborators named by the
claim, so not every external interaction goes through those three. -/
theorem C4_counterexample :
    Ev.glueResults ∈ notebookTrace ∧
    collabOf Ev.glueResults ∉ claimedCollaborators := by decide

/-- C4 (amended): every call in the notebook's trace goes through one of
five collaborators, the three named by the claim plus the text-preprocessing
helpers `preprocess.to_lowercase` and `preprocess.to_nltk_tokens` and the
scrapbook recording call `sb.glue`; the wrapper is used only through its
constructor and its fit and predict methods. -/
theorem C4_collaborators :
    (notebookTrace.all fun e =>
      decide (collabOf e ∈
        [Collaborator.snliLoader, Collaborator.preprocessHelpers,
         Collaborator.gloveDownloader, Collaborator.gensenWrapper,
         Collaborator.scrapbookRecorder])) = true ∧
    (notebookTrace.all fun e =>
      decide (collabOf e = Collaborator.gensenWrapper →
        e ∈ [Ev.constructClassifier, Ev.fit, Ev.predict])) = true := by decide

/-- C5: the only trace events between the last tokenizing event and the fit
call are the embedding download and the classifier construction, neither of
which touches the dataframes, and `clf.fit` receives exactly the classifier
and the three dataframes produced by `clean_and_tokenize`, with the trained
encoder computed entirely by the external wrapper oracle. -/
theorem C5_fit_receives_tokenized_frames :
    (notebookTrace =
      ([Ev.loadDf base_data_path Split.TRAIN nrows,
        Ev.loadDf base_data_path Split.DEV nrows,
        Ev.loadDf base_data_path Split.TEST nrows]
        ++ cleanAndTokenizeEvents ++ cleanAndTokenizeEvents
        ++ cleanAndTokenizeEvents)
      ++ [Ev.downloadEmbeddings base_data_path, Ev.constructClassifier]
      ++ [Ev.fit, Ev.predict, Ev.glueResults] ∧
     (([Ev.downloadEmbeddings base_data_path, Ev.constructClassifier]).all
        fun e => !touchesFrames e) = true) ∧
    ∀ {d : ℕ} (ext : Externals d),
      fitCall ext =
        (clf ext, clean_and_tokenize (rawTrain ext),
         clean_and_tokenize (rawDev ext), clean_and_tokenize (rawTest ext)) ∧
      trainedEncoder ext = ext.fit (clf ext) (train ext) (dev ext) (test ext) :=
  ⟨⟨rfl, rfl⟩, fun {_} _ => ⟨rfl, rfl⟩⟩

/-- C6: the three loading calls pass the same base data path and the same
row limit and differ only in the split argument, in the order train, dev,
test, and each call yields the raw dataframe of its split. -/
theorem C6_load_calls :
    (notebookTrace.filterMap loadArgsOf =
      [(base_data_path, Split.TRAIN, nrows),
       (base_data_path, Split.DEV, nrows),
       (base_data_path, Split.TEST, nrows)]) ∧
    ∀ {d : ℕ} (ext : Externals d),
      rawTrain ext = ext.load_pandas_df base_data_path Split.TRAIN nrows ∧
      rawDev ext = ext.load_pandas_df base_data_path Split.DEV nrows ∧
      rawTest ext = ext.load_pandas_df base_data_path Split.TEST nrows :=
  ⟨by decide, fun {_} _ => ⟨rfl, rfl, rfl⟩⟩

/-- C7: the notebook's glue is a deterministic function: two runs of
`clean_and_tokenize` on equal input dataframes give equal outputs. -/
theorem C7_deterministic (df1 df2 : List RawRow) (h : df1 = df2) :
    clean_and_tokenize df1 = clean_and_tokenize df2 :=
  congrArg clean_and_tokenize h

/-- Witness for C7 at concrete data. -/
theorem C7_witness :
    sampleDf = (sampleDf : List RawRow) ∧
    clean_and_tokenize sampleDf = clean_and_tokenize sampleDf :=
  ⟨rfl, C7_deterministic sampleDf sampleDf rfl⟩

/-- C8: in every dataframe returned by `clean_and_tokenize`, every code
point of every token in the two token columns is non-uppercase, because the
sentences are lowercased before the tokens are derived from them. -/
theorem C8_tokens_no_uppercase {df : List RawRow} {r : TokRow}
    (hr : r ∈ clean_and_tokenize df) {t : Sentence}
    (ht : t ∈ r.sentence1_tokens ∨ t ∈ r.sentence2_tokens) :
    ∀ c ∈ t, isUpperCode c = false := by
  obtain ⟨raw, _, rfl⟩ := mem_clean_and_tokenize hr
  intro c hc
  rcases ht with ht | ht
  · exact lowerSentence_no_upper (mem_word_tokenize ht c hc)
  · exact lowerSentence_no_upper (mem_word_tokenize ht c hc)

/-- Witness for C8 at concrete data: code point 109 is the letter m of the
token man produced from the sample sentence containing Man uppercased. -/
theorem C8_witness :
    sampleTokRow ∈ clean_and_tokenize sampleDf ∧ isUpperCode 109 = false :=
  ⟨by decide,
   @C8_tokens_no_uppercase sampleDf sampleTokRow (by decide) (strCodes "man")
     (Or.inl (by decide)) 109 (by decide)⟩

/-- C9: when the two sentence embeddings have nonzero variance, the
similarity matrix returned by predict on the two sentences is the symmetric
2 by 2 matrix with 1 at each diagonal entry, and the same value is printed
and is recorded via the scrapbook glue as its dictionary form. -/
theorem C9_predict_symmetric_unit_diagonal {d : ℕ} (ext : Externals d)
    (h1 : covar (trainedEncoder ext sentenceA) (trainedEncoder ext sentenceA) ≠ 0)
    (h2 : covar (trainedEncoder ext sentenceB) (trainedEncoder ext sentenceB) ≠ 0) :
    results ext =
      [[1, pearson (trainedEncoder ext sentenceA) (trainedEncoder ext sentenceB)],
       [pearson (trainedEncoder ext sentenceA) (trainedEncoder ext sentenceB), 1]] ∧
    printedResults ext = results ext ∧
    gluedResults ext = resultsToDict (results ext) := by
  refine ⟨?_, rfl, rfl⟩
  show predictSimilarity (trainedEncoder ext) sentences = _
  simp only [predictSimilarity, sentences, List.map]
  rw [pearson_self _ h1, pearson_self _ h2,
    pearson_comm (trainedEncoder ext sentenceB) (trainedEncoder ext sentenceA)]

/-- Witness for C9 at concrete collaborators whose encoder has positive
variance. -/
theorem C9_witness :
    covar (trainedEncoder extW sentenceA) (trainedEncoder extW sentenceA) ≠ 0 ∧
    results extW =
      [[1, pearson (trainedEncoder extW sentenceA) (trainedEncoder extW sentenceB)],
       [pearson (trainedEncoder extW sentenceA) (trainedEncoder extW sentenceB), 1]] := by
  have hcv : ∀ s : Sentence,
      covar (trainedEncoder extW s) (trainedEncoder extW s) = 1 / 2 := by
    intro s
    show covar (fun i : Fin 2 => (i.val : ℝ)) (fun i : Fin 2 => (i.val : ℝ)) = 1 / 2
    simp [covar, mean, Fin.sum_univ_two]
    norm_num
  have h1 : covar (trainedEncoder extW sentenceA) (trainedEncoder extW sentenceA) ≠ 0 := by
    rw [hcv]; norm_num
  have h2 : covar (trainedEncoder extW sentenceB) (trainedEncoder extW sentenceB) ≠ 0 := by
    rw [hcv]; norm_num
  exact ⟨h1, (C9_predict_symmetric_unit_diagonal extW h1 h2).1⟩

/-- C10: the classifier is constructed with the embedding path returned by
the preceding download call, and in the trace the download comes before the
construction, the construction before fit, and fit before predict, each of
the wrapper calls occurring exactly once. -/
theorem C10_wrapper_once_in_order :
    (notebookTrace.count Ev.constructClassifier = 1 ∧
     notebookTrace.count Ev.fit = 1 ∧
     notebookTrace.count Ev.predict = 1 ∧
     notebookTrace.indexOf (Ev.downloadEmbeddings base_data_path) <
       notebookTrace.indexOf Ev.constructClassifier ∧
     notebookTrace.indexOf Ev.constructClassifier <
       notebookTrace.indexOf Ev.fit ∧
     notebookTrace.indexOf Ev.fit < notebookTrace.indexOf Ev.predict) ∧
    ∀ {d : ℕ} (ext : Externals d),
      (clf ext).pretrained_embedding_path =
        ext.download_and_extract base_data_path :=
  ⟨by decide, fun {_} _ => rfl⟩

end GensenLocal
